import Mathlib

/-!
Verification of the model-card-toolkit core (`model_card_toolkit.py`) against
its natural-language specification.  The single source file is shallowly
embedded: the filesystem is an association list from paths to file data, the
toolkit's stateful operations are explicit state-passing functions, exceptions
become `Except`, and the external collaborators (the TFMA evaluation loader,
the TFDV statistics loader, the MLMD store queries, the bundled-template
lookup and the Jinja rendering engine) are parameters gathered in an `Env`
structure.  Code of the repository that is not in scope (the `ModelCard`
record class and its protobuf serialization, and the `tfx_util` / `graphics`
annotation helpers) is modelled from the spec, as marked in doc comments.
-/

namespace MCT

/-- A byte string, modelled as a list of naturals. -/
abbrev Bytes : Type := List Nat

/-- Modelled from the spec: the Record Model (`ModelCard` in `model_card.py`,
which is not under `src/`) is "a tree of four top-level sections (model
details, model parameters, quantitative analysis, considerations)"; the
quantitative-analysis section holds per-slice metrics and attached Graphics.
Field contents are abstracted to byte strings. -/
structure QuantitativeAnalysis where
  performance_metrics : List Bytes
  graphics : List Bytes
deriving DecidableEq

/-- Modelled from the spec: the canonical in-memory Record Model with its four
named sections. -/
structure ModelCard where
  model_details : Bytes
  model_parameters : Bytes
  quantitative_analysis : QuantitativeAnalysis
  considerations : Bytes
deriving DecidableEq

/-- The empty Record Model produced by `ModelCard()`. -/
def ModelCard.empty : ModelCard :=
  { model_details := []
    model_parameters := []
    quantitative_analysis := { performance_metrics := [], graphics := [] }
    considerations := [] }

/-! ### Serialization

Modelled from the spec: the protobuf encoding (`SerializeToString` /
`ParseFromString` on `model_card_pb2.ModelCard`, not under `src/`) is a
"deterministic binary encoding" with lossless round-trip.  We realise it as a
length-prefixed encoding of the four sections. -/

/-- Length-prefixed encoding of one byte string. -/
def encBytes (b : Bytes) : List Nat := List.length b :: b

/-- Length-prefixed encoding of a list of byte strings. -/
def encList (l : List Bytes) : List Nat :=
  l.length :: (l.map encBytes).flatten

/-- Modelled from the spec: deterministic binary serialization of a Record
Model (stands for `ModelCard.to_proto().SerializeToString()`). -/
def serialize (mc : ModelCard) : Bytes :=
  encBytes mc.model_details ++ encBytes mc.model_parameters ++
    encList mc.quantitative_analysis.performance_metrics ++
    encList mc.quantitative_analysis.graphics ++
    encBytes mc.considerations

/-- Decode one length-prefixed byte string, returning the remainder. -/
def decBytes : List Nat → Option (Bytes × List Nat)
  | [] => none
  | n :: rest =>
      if n ≤ rest.length then some (rest.take n, rest.drop n) else none

/-- Decode `k` length-prefixed byte strings. -/
def decListAux : Nat → List Nat → Option (List Bytes × List Nat)
  | 0, rest => some ([], rest)
  | k + 1, rest => do
      let (b, r) ← decBytes rest
      let (l, r2) ← decListAux k r
      some (b :: l, r2)

/-- Decode a length-prefixed list of byte strings. -/
def decList : List Nat → Option (List Bytes × List Nat)
  | [] => none
  | n :: rest => decListAux n rest

/-- Modelled from the spec: deserialization of a Record Model (stands for
`model_card_pb2.ModelCard.ParseFromString`); fails on malformed input. -/
def deserialize (s : Bytes) : Option ModelCard := do
  let (d, r1) ← decBytes s
  let (p, r2) ← decBytes r1
  let (pm, r3) ← decList r2
  let (g, r4) ← decList r3
  let (c, r5) ← decBytes r4
  if r5.isEmpty then
    some { model_details := d
           model_parameters := p
           quantitative_analysis := { performance_metrics := pm, graphics := g }
           considerations := c }
  else none

theorem decBytes_encBytes (b : Bytes) (t : List Nat) :
    decBytes ((encBytes b : List Nat) ++ t) = some (b, t) := by
  simp [decBytes, encBytes, List.take_left, List.drop_left]

theorem decListAux_encList (l : List Bytes) (t : List Nat) :
    decListAux l.length ((l.map encBytes).flatten ++ t) = some (l, t) := by
  induction l with
  | nil => simp [decListAux]
  | cons b l ih =>
      simp [decListAux, List.append_assoc, decBytes_encBytes, ih, bind, Option.bind]

theorem decList_encList (l : List Bytes) (t : List Nat) :
    decList ((encList l : List Nat) ++ t) = some (l, t) := by
  simp [decList, encList]
  exact decListAux_encList l t

/-- Round-trip of the modelled binary serialization. -/
theorem deserialize_serialize (mc : ModelCard) : deserialize (serialize mc) = some mc := by
  cases mc with
  | mk d p qa c =>
      cases qa with
      | mk pm g =>
          have h : serialize ⟨d, p, ⟨pm, g⟩, c⟩ =
              encBytes d ++ (encBytes p ++ (encList pm ++ (encList g ++ (encBytes c ++ [])))) := by
            simp [serialize, List.append_assoc]
          rw [h]
          simp only [deserialize, decBytes_encBytes, decList_encList, bind, Option.bind]
          simp [decBytes_encBytes]

/-! ### Filesystem model

The assets directory and everything the toolkit reads or writes through
`open` / `os.makedirs` is modelled as an association list from paths to file
data.  Directory creation is a no-op in this model (directories are implicit
in paths). -/

/-- Contents of one file: text (written via `open(path, 'w+')`) or binary
(written via `open(path, 'wb')`). -/
inductive FileData where
  | text (s : String)
  | bin (b : Bytes)
deriving DecidableEq

/-- The filesystem: an association list from paths to file data. -/
abbrev FS : Type := List (String × FileData)

/-- Read the file at `path`, `none` when it does not exist
(`os.path.exists` false / `FileNotFoundError` on `open` for reading). -/
def FS.get : FS → String → Option FileData
  | [], _ => none
  | (p, d) :: rest, q => if p = q then some d else FS.get rest q

/-- Create or overwrite the file at `path`. -/
def FS.set : FS → String → FileData → FS
  | [], q, v => [(q, v)]
  | (p, d) :: rest, q, v =>
      if p = q then (p, v) :: rest else (p, d) :: FS.set rest q v

theorem FS.get_set_same (fs : FS) (p : String) (v : FileData) :
    (fs.set p v).get p = some v := by
  induction fs with
  | nil => simp [FS.set, FS.get]
  | cons hd tl ih =>
      obtain ⟨q, d⟩ := hd
      by_cases h : q = p <;> simp [FS.set, FS.get, h, ih]

theorem FS.get_set_ne (fs : FS) (p q : String) (v : FileData) (h : p ≠ q) :
    (fs.set p v).get q = fs.get q := by
  induction fs with
  | nil => simp [FS.set, FS.get, h]
  | cons hd tl ih =>
      obtain ⟨r, d⟩ := hd
      by_cases hr : r = p
      · subst hr
        simp [FS.set, FS.get, h]
      · simp [FS.set, FS.get, hr, ih]

theorem FS.set_get_eq (fs : FS) (p : String) (v : FileData) (h : fs.get p = some v) :
    fs.set p v = fs := by
  induction fs with
  | nil => simp [FS.get] at h
  | cons hd tl ih =>
      obtain ⟨r, d⟩ := hd
      by_cases hr : r = p
      · subst hr
        simp [FS.get] at h
        simp [FS.set, h]
      · simp [FS.get, hr] at h
        simp [FS.set, hr, ih h]

/-! ### Paths (`os.path` as used by the toolkit) -/

/-- `os.path.join` for the relative components the toolkit joins. -/
def joinPath (a b : String) : String := if a.isEmpty then b else a ++ "/" ++ b

/-- `os.path.dirname`: everything before the last slash (the root slash is
kept when it is the only one). -/
def dirname (p : String) : String :=
  match p.toList.reverse.dropWhile (fun c => c ≠ '/') with
  | [] => ""
  | _ :: rest => if rest.isEmpty then "/" else String.mk rest.reverse

/-- `os.path.basename`: everything after the last slash. -/
def basename (p : String) : String :=
  String.mk ((p.toList.reverse.takeWhile (fun c => c ≠ '/')).reverse)

theorem joinPath_ne_of_length_ne (a : String) (s1 s2 : String)
    (h : s1.length ≠ s2.length) : joinPath a s1 ≠ joinPath a s2 := by
  unfold joinPath
  by_cases ha : a.isEmpty = true
  · rw [if_pos ha, if_pos ha]
    intro he
    exact h (congrArg String.length he)
  · rw [if_neg ha, if_neg ha]
    intro he
    have hl := congrArg String.length he
    simp only [String.length_append] at hl
    omega

/-! ### External collaborators -/

/-- An MLMD artifact as the toolkit uses it: an id and a uri. -/
structure Artifact where
  id : Nat
  uri : String
deriving DecidableEq

/-- The read-only query surface of the `mlmd.MetadataStore` collaborator:
resolve artifacts by uri (`get_artifacts_by_uri`), and the metrics/statistics
artifacts associated with a model id (the queries behind
`tfx_util.get_metrics_artifacts_for_model` and
`tfx_util.get_stats_artifacts_for_model`). -/
structure MetadataStore where
  get_artifacts_by_uri : String → List Artifact
  metrics_artifacts_for_model : Nat → List Artifact
  stats_artifacts_for_model : Nat → List Artifact

/-- The result object returned by the TFMA evaluation loader: per-slice
metrics and the plots rendered from them. -/
structure EvalResult where
  slices : List Bytes
  plots : List Bytes
deriving DecidableEq

/-- The external, deterministic collaborators the toolkit calls out to:
the TFMA loader (`tfma.load_eval_result`), the metrics reader
(`tfx_util.read_metrics_eval_result`), the TFDV statistics reader
(`tfx_util.read_stats_protos`), the MLMD population helper
(`tfx_util.generate_model_card_for_model`), the bundled-template lookup
(`pkgutil.get_data`) and the Jinja rendering of a template against the four
named sections passed to `template.render`. -/
structure Env where
  load_eval_result : String → String → Option EvalResult
  read_metrics_eval_result : String → Option EvalResult
  read_stats_protos : String → List Bytes
  generate_model_card_for_model : MetadataStore → Nat → ModelCard
  get_data : String → Option String
  render : String → Bytes → Bytes → QuantitativeAnalysis → Bytes → String

/-- Modelled from the spec: `tfx_util.annotate_eval_result_metrics` (not under
`src/`) "extracts per-slice quantitative metrics into the
quantitative-analysis section", accumulating across calls. -/
def annotate_eval_result_metrics (mc : ModelCard) (er : EvalResult) : ModelCard :=
  { mc with quantitative_analysis :=
      { mc.quantitative_analysis with performance_metrics :=
          mc.quantitative_analysis.performance_metrics ++ er.slices } }

/-- Modelled from the spec: `graphics.annotate_eval_result_plots` (not under
`src/`) "produces rendered plots (Graphics) for metrics and slicing
comparisons", accumulating across calls. -/
def annotate_eval_result_plots (mc : ModelCard) (er : EvalResult) : ModelCard :=
  { mc with quantitative_analysis :=
      { mc.quantitative_analysis with graphics :=
          mc.quantitative_analysis.graphics ++ er.plots } }

/-- Modelled from the spec: `graphics.annotate_dataset_feature_statistics_plots`
(not under `src/`) "produces Graphics summarizing feature distributions,
attached to the considerations/quantitative section", accumulating. -/
def annotate_dataset_feature_statistics_plots (mc : ModelCard) (stats : List Bytes) :
    ModelCard :=
  { mc with quantitative_analysis :=
      { mc.quantitative_analysis with graphics :=
          mc.quantitative_analysis.graphics ++ stats } }

/-! ### The toolkit -/

/-- `Source`: paths to evaluation results and dataset statistics
(`eval_result_file_format` defaults to the empty string in the source). -/
structure Source where
  eval_result_paths : List String
  eval_result_file_format : String
  dataset_statistics_paths : List String

/-- The state of a constructed `ModelCardToolkit` instance: the fields set by
`__init__`. -/
structure ModelCardToolkit where
  output_dir : String
  source : Option Source
  store : Option MetadataStore
  artifact_with_model_uri : Option Artifact

/-- `self._mcta_proto_file`: `os.path.join(output_dir, 'data', 'model_card.proto')`. -/
def ModelCardToolkit.mcta_proto_file (t : ModelCardToolkit) : String :=
  joinPath t.output_dir "data/model_card.proto"

/-- `self._mcta_template_dir`: `os.path.join(output_dir, 'template')`. -/
def ModelCardToolkit.mcta_template_dir (t : ModelCardToolkit) : String :=
  joinPath t.output_dir "template"

/-- `self._model_cards_dir`: `os.path.join(output_dir, 'model_cards')`. -/
def ModelCardToolkit.model_cards_dir (t : ModelCardToolkit) : String :=
  joinPath t.output_dir "model_cards"

/-- Python truthiness of an `Optional[Text]`: `None` and the empty string are
falsy. -/
def optTextTruthy : Option String → Bool
  | none => false
  | some s => !s.isEmpty

/-- `ModelCardToolkit.__init__`.  `tmp_dir` stands for the fresh directory
`tempfile.mkdtemp()` would return when `output_dir` is falsy.  On success the
result carries the constructed instance together with the `logging.info`
messages emitted; `ValueError` becomes `Except.error`. -/
def ModelCardToolkit.init (output_dir : Option String) (tmp_dir : String)
    (mlmd_store : Option MetadataStore) (model_uri : Option String)
    (source : Option Source) :
    Except String (ModelCardToolkit × List String) :=
  let od := if optTextTruthy output_dir then output_dir.getD tmp_dir else tmp_dir
  match mlmd_store with
  | some store =>
      if optTextTruthy model_uri then
        let models := store.get_artifacts_by_uri (model_uri.getD "")
        if models.isEmpty then
          Except.error "model_uri cannot be found in the mlmd_store."
        else
          Except.ok
            ({ output_dir := od, source := source, store := some store,
               artifact_with_model_uri := models.getLast? },
             if 1 < models.length then
               ["artifacts are found with the model_uri. The last one is used."]
             else [])
      else Except.error "If mlmd_store is set, model_uri should be set."
  | none =>
      Except.ok
        ({ output_dir := od, source := source, store := none,
           artifact_with_model_uri := none },
         if optTextTruthy model_uri then
           ["model_uri ignored when mlmd_store is not set."]
         else [])

/-! ### Proto file persistence (`_write_proto_file` / `_read_proto_file`) -/

/-- `_write_proto_file`: `os.makedirs(...)` then `open(path, 'wb')` and one
`write` of the serialized record.  The write goes directly to `path`. -/
def write_proto_file (fs : FS) (path : String) (mc : ModelCard) : FS :=
  fs.set path (FileData.bin (serialize mc))

/-- The filesystem states observable while `_write_proto_file` runs:
the initial state, the state after `open(path, 'wb')` has truncated the
target in place, and the state after the serialized bytes are written. -/
def write_proto_file_trace (fs : FS) (path : String) (mc : ModelCard) : List FS :=
  [fs, fs.set path (FileData.bin []), fs.set path (FileData.bin (serialize mc))]

/-- `_read_proto_file`: `open(path, 'rb')`, `ParseFromString`, and
`copy_from_proto`.  A missing file or unparseable content is an error. -/
def read_proto_file (fs : FS) (path : String) : Except String ModelCard :=
  match fs.get path with
  | some (FileData.bin b) =>
      match deserialize b with
      | some mc => Except.ok mc
      | none => Except.error "could not parse model card proto"
  | some (FileData.text _) => Except.error "could not parse model card proto"
  | none => Except.error "file not found"

/-! ### Scaffolding -/

/-- One iteration of the loop over `self._source.eval_result_paths`:
load the eval result, and when one is found annotate metrics then plots;
otherwise leave the card unchanged. -/
def evalResultStep (env : Env) (fmt : String) (mc : ModelCard) (path : String) :
    ModelCard :=
  match env.load_eval_result path fmt with
  | some er => annotate_eval_result_plots (annotate_eval_result_metrics mc er) er
  | none => mc

/-- One iteration of the loop over the lineage-discovered metrics artifacts:
read the eval result at the artifact's uri and annotate when present. -/
def metricsArtifactStep (env : Env) (mc : ModelCard) (a : Artifact) : ModelCard :=
  match env.read_metrics_eval_result a.uri with
  | some er => annotate_eval_result_plots (annotate_eval_result_metrics mc er) er
  | none => mc

/-- `_scaffold_model_card`: pre-populate from MLMD when a store is bound,
then apply explicit eval-result sources in order, then lineage-discovered
metrics artifacts, then explicit dataset-statistics sources, then
lineage-discovered statistics artifacts. -/
def ModelCardToolkit.scaffold_model_card (t : ModelCardToolkit) (env : Env) :
    ModelCard :=
  let mc0 :=
    match t.store, t.artifact_with_model_uri with
    | some s, some a => env.generate_model_card_for_model s a.id
    | _, _ => ModelCard.empty
  let mc1 :=
    match t.source with
    | some src => src.eval_result_paths.foldl
        (evalResultStep env src.eval_result_file_format) mc0
    | none => mc0
  let mc2 :=
    match t.store, t.artifact_with_model_uri with
    | some s, some a =>
        (s.metrics_artifacts_for_model a.id).foldl (metricsArtifactStep env) mc1
    | _, _ => mc1
  let mc3 :=
    match t.source with
    | some src => src.dataset_statistics_paths.foldl
        (fun mc p => annotate_dataset_feature_statistics_plots mc (env.read_stats_protos p))
        mc2
    | none => mc2
  match t.store, t.artifact_with_model_uri with
  | some s, some a =>
      (s.stats_artifacts_for_model a.id).foldl
        (fun mc sa =>
          annotate_dataset_feature_statistics_plots mc (env.read_stats_protos sa.uri))
        mc3
  | _, _ => mc3

/-- The two bundled UI template resources (`_UI_TEMPLATES`). -/
def ui_template_html : String := "template/html/default_template.html.jinja"

def ui_template_md : String := "template/md/default_template.md.jinja"

/-- `_DEFAULT_UI_TEMPLATE_FILE`: `os.path.join('html', 'default_template.html.jinja')`. -/
def default_ui_template_file : String := "html/default_template.html.jinja"

/-- `scaffold_assets`: generate the card, write the proto file, then copy the
two bundled UI templates into the assets directory; a missing bundled
resource raises `FileNotFoundError` after the earlier writes took effect. -/
def ModelCardToolkit.scaffold_assets (t : ModelCardToolkit) (env : Env) (fs : FS) :
    FS × Except String ModelCard :=
  let mc := t.scaffold_model_card env
  let fs1 := write_proto_file fs t.mcta_proto_file mc
  match env.get_data ui_template_html with
  | none => (fs1, Except.error "Cannot find template file")
  | some c1 =>
      let fs2 := fs1.set (joinPath t.output_dir ui_template_html) (FileData.text c1)
      match env.get_data ui_template_md with
      | none => (fs2, Except.error "Cannot find template file")
      | some c2 =>
          (fs2.set (joinPath t.output_dir ui_template_md) (FileData.text c2),
           Except.ok mc)

/-- `update_model_card`: write the given record to the proto file. -/
def ModelCardToolkit.update_model_card (t : ModelCardToolkit) (fs : FS)
    (mc : ModelCard) : FS :=
  write_proto_file fs t.mcta_proto_file mc

/-- `export_format`.  The result pairs the filesystem after the call (side
effects survive a raised exception) with the returned document text or the
error raised.  `model_card`, `template_path` follow Python truthiness;
`output_file` defaults to `model_card.html` at call sites. -/
def ModelCardToolkit.export_format (t : ModelCardToolkit) (env : Env) (fs : FS)
    (model_card : Option ModelCard) (template_path : Option String)
    (output_file : String) : FS × Except String String :=
  let tp :=
    if optTextTruthy template_path then template_path.getD ""
    else joinPath t.mcta_template_dir default_ui_template_file
  let template_dir := dirname tp
  let template_file := basename tp
  let step : FS × Except String ModelCard :=
    match model_card with
    | some mc => (t.update_model_card fs mc, Except.ok mc)
    | none =>
        match fs.get t.mcta_proto_file with
        | some _ => (fs, read_proto_file fs t.mcta_proto_file)
        | none =>
            (fs, Except.error "scaffold_assets() must be called before export_format().")
  match step with
  | (fs1, Except.error e) => (fs1, Except.error e)
  | (fs1, Except.ok mc) =>
      match fs1.get (joinPath template_dir template_file) with
      | some (FileData.text tmpl) =>
          let content := env.render tmpl mc.model_details mc.model_parameters
            mc.quantitative_analysis mc.considerations
          (fs1.set (joinPath t.model_cards_dir output_file) (FileData.text content),
           Except.ok content)
      | _ => (fs1, Except.error "TemplateNotFound")

/-! ### Shared lemmas and sample values -/

theorem read_write_proto (fs : FS) (path : String) (mc : ModelCard) :
    read_proto_file (write_proto_file fs path mc) path = Except.ok mc := by
  simp [read_proto_file, write_proto_file, FS.get_set_same, deserialize_serialize]

theorem html_path_ne_proto (od : String) :
    joinPath od ui_template_html ≠ joinPath od "data/model_card.proto" := by
  apply joinPath_ne_of_length_ne
  decide

theorem md_path_ne_proto (od : String) :
    joinPath od ui_template_md ≠ joinPath od "data/model_card.proto" := by
  apply joinPath_ne_of_length_ne
  decide

/-- Filesystem after a successful `scaffold_assets`, in terms of its pieces. -/
theorem scaffold_assets_ok (t : ModelCardToolkit) (env : Env) (fs : FS)
    (fs' : FS) (mc : ModelCard)
    (h : t.scaffold_assets env fs = (fs', Except.ok mc)) :
    mc = t.scaffold_model_card env ∧
    ∃ c1 c2, env.get_data ui_template_html = some c1 ∧
      env.get_data ui_template_md = some c2 ∧
      fs' = ((write_proto_file fs t.mcta_proto_file mc).set
              (joinPath t.output_dir ui_template_html) (FileData.text c1)).set
              (joinPath t.output_dir ui_template_md) (FileData.text c2) := by
  unfold ModelCardToolkit.scaffold_assets at h
  cases h1 : env.get_data ui_template_html with
  | none => rw [h1] at h; exact absurd (congrArg Prod.snd h) (by simp)
  | some c1 =>
      rw [h1] at h
      cases h2 : env.get_data ui_template_md with
      | none => rw [h2] at h; exact absurd (congrArg Prod.snd h) (by simp)
      | some c2 =>
          rw [h2] at h
          have hmc : mc = t.scaffold_model_card env := by
            have := congrArg Prod.snd h
            simp at this
            exact this.symm
          refine ⟨hmc, c1, c2, rfl, rfl, ?_⟩
          have := congrArg Prod.fst h
          simp at this
          rw [← this, hmc]

/-- A sample environment for concrete witnesses. -/
def envSample : Env :=
  { load_eval_result := fun _ _ => none
    read_metrics_eval_result := fun _ => none
    read_stats_protos := fun _ => []
    generate_model_card_for_model := fun _ _ => ModelCard.empty
    get_data := fun _ => some "tmpl"
    render := fun tmpl _ _ _ _ => tmpl }

/-- A sample toolkit instance (no store, no source) for concrete witnesses. -/
def tSample : ModelCardToolkit :=
  { output_dir := "out", source := none, store := none,
    artifact_with_model_uri := none }

/-! ### Claims -/

/-- C1: persisting a Record Model via `_write_proto_file` and loading it back
via `_read_proto_file` yields the same record, and the record returned by a
successful `scaffold_assets` equals the result of deserializing the proto
file it wrote at `data/model_card.proto`. -/
theorem C1_persist_roundtrip (fs : FS) (path : String) (mc : ModelCard)
    (t : ModelCardToolkit) (env : Env) (fs' : FS) (mc' : ModelCard)
    (h : t.scaffold_assets env fs = (fs', Except.ok mc')) :
    read_proto_file (write_proto_file fs path mc) path = Except.ok mc ∧
    read_proto_file fs' t.mcta_proto_file = Except.ok mc' := by
  refine ⟨read_write_proto fs path mc, ?_⟩
  obtain ⟨hmc, c1, c2, _, _, hfs⟩ := scaffold_assets_ok t env fs fs' mc' h
  rw [hfs]
  unfold ModelCardToolkit.mcta_proto_file
  rw [read_proto_file, FS.get_set_ne _ _ _ _ (md_path_ne_proto t.output_dir),
    FS.get_set_ne _ _ _ _ (html_path_ne_proto t.output_dir)]
  have := read_write_proto fs (t.mcta_proto_file) mc'
  unfold ModelCardToolkit.mcta_proto_file at this
  rw [read_proto_file] at this
  exact this

theorem C1_witness :
    read_proto_file (write_proto_file [] "p" ModelCard.empty) "p" =
      Except.ok ModelCard.empty ∧
    read_proto_file (tSample.scaffold_assets envSample []).1
      tSample.mcta_proto_file = Except.ok ModelCard.empty :=
  C1_persist_roundtrip [] "p" ModelCard.empty tSample envSample
    (tSample.scaffold_assets envSample []).1 ModelCard.empty rfl

/-- C2: `export_format` with no `model_card` argument, when no proto file
exists at the fixed proto path, raises the precondition error and leaves the
filesystem unchanged. -/
theorem C2_export_before_scaffold (t : ModelCardToolkit) (env : Env) (fs : FS)
    (template_path : Option String) (output_file : String)
    (h : fs.get t.mcta_proto_file = none) :
    t.export_format env fs none template_path output_file =
      (fs, Except.error "scaffold_assets() must be called before export_format().") := by
  unfold ModelCardToolkit.export_format
  simp [h]

theorem C2_witness :
    tSample.export_format envSample [] none none "model_card.html" =
      ([], Except.error "scaffold_assets() must be called before export_format().") :=
  C2_export_before_scaffold tSample envSample [] none "model_card.html" rfl

/-- A sample metadata store resolving every uri to no artifact. -/
def storeSample : MetadataStore :=
  { get_artifacts_by_uri := fun _ => []
    metrics_artifacts_for_model := fun _ => []
    stats_artifacts_for_model := fun _ => [] }

/-- A sample metadata store resolving every uri to two artifacts. -/
def storeTwo : MetadataStore :=
  { get_artifacts_by_uri := fun _ => [⟨1, "a"⟩, ⟨2, "b"⟩]
    metrics_artifacts_for_model := fun _ => []
    stats_artifacts_for_model := fun _ => [] }

/-- C3 counterexample: constructing the toolkit with a model locator but no
lineage store does not fail — initialization succeeds, ignoring the locator
with a log message. -/
theorem C3_counterexample :
    ModelCardToolkit.init (some "out") "tmp" none (some "model") none =
      Except.ok ({ output_dir := "out", source := none, store := none,
                   artifact_with_model_uri := none },
                 ["model_uri ignored when mlmd_store is not set."]) := rfl

/-- C3 (amended): a model locator supplied without a lineage store is ignored
(with a log message) and construction succeeds; the fatal configuration error
at construction is the converse case, a lineage store supplied without a
model locator. -/
theorem C3_locator_store_config (od : Option String) (tmp u : String)
    (src : Option Source) (st : MetadataStore) (hu : u.isEmpty = false) :
    (∃ t, ModelCardToolkit.init od tmp none (some u) src =
        Except.ok (t, ["model_uri ignored when mlmd_store is not set."])) ∧
    ModelCardToolkit.init od tmp (some st) none src =
      Except.error "If mlmd_store is set, model_uri should be set." := by
  constructor
  · refine ⟨{ output_dir := if optTextTruthy od then od.getD tmp else tmp,
              source := src, store := none, artifact_with_model_uri := none }, ?_⟩
    unfold ModelCardToolkit.init
    simp [optTextTruthy, hu]
  · unfold ModelCardToolkit.init
    simp [optTextTruthy]

theorem C3_witness :
    (∃ t, ModelCardToolkit.init (some "out") "tmp" none (some "model") none =
        Except.ok (t, ["model_uri ignored when mlmd_store is not set."])) ∧
    ModelCardToolkit.init (some "out") "tmp" (some storeSample) none none =
      Except.error "If mlmd_store is set, model_uri should be set." :=
  C3_locator_store_config (some "out") "tmp" "model" none storeSample rfl

/-- C4 counterexample: `_write_proto_file` overwriting an existing proto file
is not atomic — at the intermediate point of the write (after the target has
been opened for writing and truncated) a reader of the fixed proto path
observes an empty file that is neither the old nor the new content. -/
theorem C4_counterexample :
    ((write_proto_file_trace
        [("out/data/model_card.proto", FileData.bin (serialize ModelCard.empty))]
        "out/data/model_card.proto"
        { model_details := [1], model_parameters := [],
          quantitative_analysis := { performance_metrics := [], graphics := [] },
          considerations := [] })[1]?).map
        (fun s => s.get "out/data/model_card.proto") =
      some (some (FileData.bin [])) ∧
    FileData.bin [] ≠ FileData.bin (serialize ModelCard.empty) ∧
    FileData.bin [] ≠ FileData.bin (serialize
      { model_details := [1], model_parameters := [],
        quantitative_analysis := { performance_metrics := [], graphics := [] },
        considerations := [] }) := by
  refine ⟨rfl, by decide, by decide⟩

theorem serialize_ne_nil (mc : ModelCard) : serialize mc ≠ [] := by
  simp [serialize, encBytes]

/-- C4 (amended): `_write_proto_file` overwrites the proto file in place by
truncating the target and then writing the serialized record directly, with
no temporary file and rename: whenever the file previously held non-empty
content, there is an observable intermediate state of the write in which a
reader of the path sees neither the previous nor the final content. -/
theorem C4_write_not_atomic (fs : FS) (path : String) (mc : ModelCard)
    (old : Bytes) (hold : fs.get path = some (FileData.bin old)) (hne : old ≠ []) :
    write_proto_file fs path mc = fs.set path (FileData.bin (serialize mc)) ∧
    ∃ s ∈ write_proto_file_trace fs path mc,
      s.get path ≠ fs.get path ∧
      s.get path ≠ some (FileData.bin (serialize mc)) := by
  refine ⟨rfl, fs.set path (FileData.bin []), by simp [write_proto_file_trace], ?_, ?_⟩
  · rw [FS.get_set_same, hold]
    intro h
    refine hne ?_
    injection h with h
    injection h with h
    exact h.symm
  · rw [FS.get_set_same]
    intro h
    refine serialize_ne_nil mc ?_
    injection h with h
    injection h with h
    exact h.symm

theorem C4_witness :
    write_proto_file [("p", FileData.bin [5])] "p" ModelCard.empty =
      FS.set [("p", FileData.bin [5])] "p" (FileData.bin (serialize ModelCard.empty)) ∧
    ∃ s ∈ write_proto_file_trace [("p", FileData.bin [5])] "p" ModelCard.empty,
      s.get "p" ≠ FS.get [("p", FileData.bin [5])] "p" ∧
      s.get "p" ≠ some (FileData.bin (serialize ModelCard.empty)) :=
  C4_write_not_atomic [("p", FileData.bin [5])] "p" ModelCard.empty [5] rfl (by decide)

/-- C5: when both a lineage store and a model locator are supplied, the
locator is resolved at construction: with at least one match, initialization
succeeds binding the last returned match, logging the ambiguity when there is
more than one; with zero matches, initialization fails. -/
theorem C5_lineage_resolution (od : Option String) (tmp u : String)
    (src : Option Source) (st : MetadataStore) (hu : u.isEmpty = false) :
    (st.get_artifacts_by_uri u ≠ [] →
      ∃ t, ModelCardToolkit.init od tmp (some st) (some u) src =
          Except.ok (t,
            if 1 < (st.get_artifacts_by_uri u).length then
              ["artifacts are found with the model_uri. The last one is used."]
            else []) ∧
        t.artifact_with_model_uri = (st.get_artifacts_by_uri u).getLast?) ∧
    (st.get_artifacts_by_uri u = [] →
      ModelCardToolkit.init od tmp (some st) (some u) src =
        Except.error "model_uri cannot be found in the mlmd_store.") := by
  constructor
  · intro hm
    refine ⟨{ output_dir := if optTextTruthy od then od.getD tmp else tmp,
              source := src, store := some st,
              artifact_with_model_uri := (st.get_artifacts_by_uri u).getLast? },
            ?_, rfl⟩
    unfold ModelCardToolkit.init
    simp [optTextTruthy, hu, hm]
  · intro hm
    unfold ModelCardToolkit.init
    simp [optTextTruthy, hu, hm]

theorem C5_witness :
    (∃ t, ModelCardToolkit.init (some "out") "tmp" (some storeTwo) (some "m") none =
        Except.ok (t, ["artifacts are found with the model_uri. The last one is used."]) ∧
      t.artifact_with_model_uri = some ⟨2, "b"⟩) ∧
    ModelCardToolkit.init (some "out") "tmp" (some storeSample) (some "m") none =
      Except.error "model_uri cannot be found in the mlmd_store." := by
  constructor
  · have h := (C5_lineage_resolution (some "out") "tmp" "m" none storeTwo rfl).1
      (by simp [storeTwo])
    simpa [storeTwo] using h
  · exact (C5_lineage_resolution (some "out") "tmp" "m" none storeSample rfl).2 rfl

/-- C6: scaffolding with one eval-result path whose load returns a result and
one whose load returns the absence signal raises no error and returns a
Record Model populated only from the existing source. -/
theorem C6_missing_source_skipped (od p1 p2 fmt : String) (e1 : EvalResult)
    (env : Env) (fs : FS) (c1 c2 : String)
    (h1 : env.load_eval_result p1 fmt = some e1)
    (h2 : env.load_eval_result p2 fmt = none)
    (hg1 : env.get_data ui_template_html = some c1)
    (hg2 : env.get_data ui_template_md = some c2) :
    (ModelCardToolkit.scaffold_assets
        { output_dir := od, source := some ⟨[p1, p2], fmt, []⟩,
          store := none, artifact_with_model_uri := none } env fs).2 =
      Except.ok
        { model_details := [], model_parameters := [],
          quantitative_analysis :=
            { performance_metrics := e1.slices, graphics := e1.plots },
          considerations := [] } := by
  simp [ModelCardToolkit.scaffold_assets, hg1, hg2,
    ModelCardToolkit.scaffold_model_card, evalResultStep, h1, h2,
    annotate_eval_result_metrics, annotate_eval_result_plots, ModelCard.empty]

theorem C6_witness :
    (ModelCardToolkit.scaffold_assets
        { output_dir := "out", source := some ⟨["e1", "e2"], "", []⟩,
          store := none, artifact_with_model_uri := none }
        { envSample with load_eval_result := fun p _ =>
            if p = "e1" then some { slices := [[7]], plots := [[8]] } else none }
        []).2 =
      Except.ok
        { model_details := [], model_parameters := [],
          quantitative_analysis :=
            { performance_metrics := [[7]], graphics := [[8]] },
          considerations := [] } :=
  C6_missing_source_skipped "out" "e1" "e2" "" { slices := [[7]], plots := [[8]] }
    { envSample with load_eval_result := fun p _ =>
        if p = "e1" then some { slices := [[7]], plots := [[8]] } else none }
    [] "tmpl" "tmpl" rfl rfl rfl rfl

/-- C7: explicitly-supplied eval-result sources are applied in the order
given, accumulating metrics and graphics across sources, and the
lineage-discovered metrics artifacts are applied after all explicit sources
with the same accumulation rule. -/
theorem C7_accumulation_order (od fmt p1 p2 : String) (e1 e2 e3 e4 : EvalResult)
    (st : MetadataStore) (a m1 m2 : Artifact) (env : Env)
    (hq : (env.generate_model_card_for_model st a.id).quantitative_analysis =
      { performance_metrics := [], graphics := [] })
    (h1 : env.load_eval_result p1 fmt = some e1)
    (h2 : env.load_eval_result p2 fmt = some e2)
    (hm : st.metrics_artifacts_for_model a.id = [m1, m2])
    (hr1 : env.read_metrics_eval_result m1.uri = some e3)
    (hr2 : env.read_metrics_eval_result m2.uri = some e4)
    (hs : st.stats_artifacts_for_model a.id = []) :
    (ModelCardToolkit.scaffold_model_card
        { output_dir := od, source := some ⟨[p1, p2], fmt, []⟩,
          store := some st, artifact_with_model_uri := some a } env).quantitative_analysis =
      { performance_metrics := e1.slices ++ e2.slices ++ e3.slices ++ e4.slices,
        graphics := e1.plots ++ e2.plots ++ e3.plots ++ e4.plots } := by
  simp [ModelCardToolkit.scaffold_model_card, evalResultStep, metricsArtifactStep,
    h1, h2, hm, hr1, hr2, hs, hq, annotate_eval_result_metrics,
    annotate_eval_result_plots, List.append_assoc]

theorem C7_witness :
    (ModelCardToolkit.scaffold_model_card
        { output_dir := "out", source := some ⟨["e1", "e2"], "", []⟩,
          store := some { storeSample with
            metrics_artifacts_for_model := fun _ => [⟨3, "m1"⟩, ⟨4, "m2"⟩] },
          artifact_with_model_uri := some ⟨9, "model"⟩ }
        { envSample with
            load_eval_result := fun p _ =>
              if p = "e1" then some { slices := [[1]], plots := [[11]] }
              else if p = "e2" then some { slices := [[2]], plots := [[12]] }
              else none
            read_metrics_eval_result := fun u =>
              if u = "m1" then some { slices := [[3]], plots := [[13]] }
              else if u = "m2" then some { slices := [[4]], plots := [[14]] }
              else none }).quantitative_analysis =
      { performance_metrics := [[1], [2], [3], [4]],
        graphics := [[11], [12], [13], [14]] } :=
  C7_accumulation_order "out" "" "e1" "e2"
    { slices := [[1]], plots := [[11]] } { slices := [[2]], plots := [[12]] }
    { slices := [[3]], plots := [[13]] } { slices := [[4]], plots := [[14]] }
    { storeSample with metrics_artifacts_for_model := fun _ => [⟨3, "m1"⟩, ⟨4, "m2"⟩] }
    ⟨9, "model"⟩ ⟨3, "m1"⟩ ⟨4, "m2"⟩
    { envSample with
        load_eval_result := fun p _ =>
          if p = "e1" then some { slices := [[1]], plots := [[11]] }
          else if p = "e2" then some { slices := [[2]], plots := [[12]] }
          else none
        read_metrics_eval_result := fun u =>
          if u = "m1" then some { slices := [[3]], plots := [[13]] }
          else if u = "m2" then some { slices := [[4]], plots := [[14]] }
          else none }
    rfl rfl rfl rfl rfl rfl rfl

theorem html_ne_md (od : String) :
    joinPath od ui_template_html ≠ joinPath od ui_template_md := by
  apply joinPath_ne_of_length_ne
  decide

/-- C8: with no lineage store bound, scaffolding twice over the same sources
(the second run starting from the assets the first produced) yields equal
Record Models, and the second run changes nothing on disk. -/
theorem C8_idempotent_rescaffold (t : ModelCardToolkit) (env : Env)
    (fs fs1 fs2 : FS) (mc1 mc2 : ModelCard)
    (_hstore : t.store = none)
    (h1 : t.scaffold_assets env fs = (fs1, Except.ok mc1))
    (h2 : t.scaffold_assets env fs1 = (fs2, Except.ok mc2)) :
    mc1 = mc2 ∧ fs2 = fs1 := by
  obtain ⟨hmc1, c1, c2, hg1, hg2, hfs1⟩ := scaffold_assets_ok t env fs fs1 mc1 h1
  obtain ⟨hmc2, d1, d2, hg1', hg2', hfs2⟩ := scaffold_assets_ok t env fs1 fs2 mc2 h2
  have hd1 : d1 = c1 := by
    rw [hg1] at hg1'
    exact (Option.some.inj hg1').symm
  have hd2 : d2 = c2 := by
    rw [hg2] at hg2'
    exact (Option.some.inj hg2').symm
  have hmc : mc1 = mc2 := hmc1.trans hmc2.symm
  refine ⟨hmc, ?_⟩
  rw [hd1, hd2, ← hmc] at hfs2
  have hproto_html : joinPath t.output_dir ui_template_html ≠ t.mcta_proto_file :=
    html_path_ne_proto t.output_dir
  have hproto_md : joinPath t.output_dir ui_template_md ≠ t.mcta_proto_file :=
    md_path_ne_proto t.output_dir
  have hhm : joinPath t.output_dir ui_template_html ≠ joinPath t.output_dir ui_template_md :=
    html_ne_md t.output_dir
  have hget_proto : fs1.get t.mcta_proto_file = some (FileData.bin (serialize mc1)) := by
    rw [hfs1, FS.get_set_ne _ _ _ _ hproto_md, FS.get_set_ne _ _ _ _ hproto_html]
    exact FS.get_set_same fs t.mcta_proto_file _
  have hget_html : fs1.get (joinPath t.output_dir ui_template_html) =
      some (FileData.text c1) := by
    rw [hfs1, FS.get_set_ne _ _ _ _ hhm.symm]
    exact FS.get_set_same _ _ _
  have e1 : write_proto_file fs1 t.mcta_proto_file mc1 = fs1 :=
    FS.set_get_eq fs1 t.mcta_proto_file _ hget_proto
  rw [hfs2, e1]
  have e2 : fs1.set (joinPath t.output_dir ui_template_html) (FileData.text c1) = fs1 :=
    FS.set_get_eq fs1 _ _ hget_html
  rw [e2]
  have hget_md : fs1.get (joinPath t.output_dir ui_template_md) =
      some (FileData.text c2) := by
    rw [hfs1]
    exact FS.get_set_same _ _ _
  exact FS.set_get_eq fs1 _ _ hget_md

theorem C8_witness :
    tSample.scaffold_model_card envSample = tSample.scaffold_model_card envSample ∧
    (tSample.scaffold_assets envSample
        ((tSample.scaffold_assets envSample []).1)).1 =
      (tSample.scaffold_assets envSample []).1 :=
  C8_idempotent_rescaffold tSample envSample []
    (tSample.scaffold_assets envSample []).1
    (tSample.scaffold_assets envSample ((tSample.scaffold_assets envSample []).1)).1
    (tSample.scaffold_model_card envSample) (tSample.scaffold_model_card envSample)
    rfl rfl rfl

/-- C9: `export_format` passes exactly the four named sections of the Record
Model to the template: for the same template text, two exports from toolkits
of any configuration, filesystems of any content, and records agreeing on the
four sections return identical rendered text. -/
theorem C9_render_only_four_sections (t1 t2 : ModelCardToolkit) (env : Env)
    (fs1 fs2 : FS) (mc1 mc2 : ModelCard) (tp tmpl out1 out2 : String)
    (htp : tp.isEmpty = false)
    (h1 : (write_proto_file fs1 t1.mcta_proto_file mc1).get
        (joinPath (dirname tp) (basename tp)) = some (FileData.text tmpl))
    (h2 : (write_proto_file fs2 t2.mcta_proto_file mc2).get
        (joinPath (dirname tp) (basename tp)) = some (FileData.text tmpl))
    (hd : mc1.model_details = mc2.model_details)
    (hp : mc1.model_parameters = mc2.model_parameters)
    (hq : mc1.quantitative_analysis = mc2.quantitative_analysis)
    (hc : mc1.considerations = mc2.considerations) :
    (t1.export_format env fs1 (some mc1) (some tp) out1).2 =
      (t2.export_format env fs2 (some mc2) (some tp) out2).2 := by
  simp [ModelCardToolkit.export_format, optTextTruthy, htp,
    ModelCardToolkit.update_model_card, h1, h2, hd, hp, hq, hc]

theorem C9_witness :
    ((tSample.export_format envSample [("t/x", FileData.text "T")]
        (some ModelCard.empty) (some "t/x") "o1").2 =
      (ModelCardToolkit.export_format
        { output_dir := "other", source := none, store := none,
          artifact_with_model_uri := none }
        envSample [("t/x", FileData.text "T"), ("noise", FileData.bin [0])]
        (some ModelCard.empty) (some "t/x") "o2").2) :=
  C9_render_only_four_sections tSample
    { output_dir := "other", source := none, store := none,
      artifact_with_model_uri := none }
    envSample [("t/x", FileData.text "T")]
    [("t/x", FileData.text "T"), ("noise", FileData.bin [0])]
    ModelCard.empty ModelCard.empty "t/x" "T" "o1" "o2"
    rfl rfl rfl rfl rfl rfl rfl

/-- C10 counterexample: on a freshly constructed toolkit (no scaffold ever
run, empty filesystem), `export_format` with an explicit `model_card` and the
default template path does not succeed: the template files were never
materialized, so the call fails at template loading. -/
theorem C10_counterexample :
    (ModelCardToolkit.export_format
        { output_dir := "out", source := none, store := none,
          artifact_with_model_uri := none }
        envSample [] (some ModelCard.empty) none "model_card.html").2 =
      Except.error "TemplateNotFound" := rfl

/-- C10 (amended): `export_format` given an explicit `model_card` persists it
before rendering — after the call, whatever the render outcome, the proto
file equals the serialization of the supplied record, and the
scaffold-precondition error is never raised; the call as a whole succeeds
only when the template resolves. -/
theorem C10_persists_before_render (t : ModelCardToolkit) (env : Env) (fs : FS)
    (mc : ModelCard) (tp : Option String) (out : String)
    (hout : joinPath t.model_cards_dir out ≠ t.mcta_proto_file) :
    ((t.export_format env fs (some mc) tp out).1).get t.mcta_proto_file =
      some (FileData.bin (serialize mc)) ∧
    (t.export_format env fs (some mc) tp out).2 ≠
      Except.error "scaffold_assets() must be called before export_format()." := by
  simp only [ModelCardToolkit.export_format, ModelCardToolkit.update_model_card,
    write_proto_file]
  generalize (if optTextTruthy tp = true then tp.getD ""
      else joinPath t.mcta_template_dir default_ui_template_file) = tpr
  rcases hres : FS.get (FS.set fs t.mcta_proto_file (FileData.bin (serialize mc)))
      (joinPath (dirname tpr) (basename tpr)) with _ | fd
  · simp only [hres]
    refine ⟨FS.get_set_same fs t.mcta_proto_file _, by simp⟩
  · cases fd with
    | text s =>
        simp only [hres]
        constructor
        · rw [FS.get_set_ne _ _ _ _ hout]
          exact FS.get_set_same fs t.mcta_proto_file _
        · simp
    | bin b =>
        simp only [hres]
        refine ⟨FS.get_set_same fs t.mcta_proto_file _, by simp⟩

theorem C10_witness :
    ((tSample.export_format envSample [] (some ModelCard.empty) none
        "model_card.html").1).get tSample.mcta_proto_file =
      some (FileData.bin (serialize ModelCard.empty)) ∧
    (tSample.export_format envSample [] (some ModelCard.empty) none
        "model_card.html").2 ≠
      Except.error "scaffold_assets() must be called before export_format()." :=
  C10_persists_before_render tSample envSample [] ModelCard.empty none
    "model_card.html" (by decide)

end MCT
